import Mathlib

/-
  Verification of the dynamic plugin loading and invocation protocol of the
  custom tensor-filter subsystem.

  Shallow embedding of src/gst/tensor_filter/tensor_filter_custom.c and of the
  scaler example module
  src/nnstreamer_example/custom_example_scaler/nnstreamer_customfilter_example_scaler.c.

  Modelling conventions:
  - A function pointer of the capability table is modelled by a Bool recording
    its presence (non-NULL).  The behaviour of a module call (its returned
    status, reported size, produced shape) is passed as an explicit parameter
    of the dispatcher, since the dispatcher treats it as an opaque callback.
  - `g_assert` failures are modelled as error results of the operation, using
    the error taxonomy of the specification: capability-invariant asserts map
    to `ContractViolation`, the lifecycle asserts on the return value of
    `custom_loadlib` map to `LoadError` (failed load) or `LifecycleAssert`
    (unexpected double/missing open), the size assert of the module-allocates
    path maps to `SizeMismatch`, and calling an absent (NULL) function pointer
    maps to `NullDeref`.
  - The state carries ghost resource counters: `libsOpen` counts dlopen minus
    dlclose calls, `records` counts g_new0 minus g_free calls on the internal
    record, `initCalls` counts calls of the module init function, `exitLog`
    records each call of the module exit function together with the
    module_state and config it received.  The ghost field `negotiated` records
    whether a shape negotiation succeeded during the lifetime of the handle;
    no translated code path reads it.
-/

deriving instance DecidableEq for Except

namespace NNStreamer

/-- Scalar element kinds of a tensor.  Modelled from the spec: the enumerated
type and the byte-width table live in the tensor headers, which are not under
src/; the spec lists int8/uint8/int16/uint16/int32/uint32/int64/uint64/
float32/float64, each with a known byte width. -/
inductive TensorType where
  | int8
  | uint8
  | int16
  | uint16
  | int32
  | uint32
  | int64
  | uint64
  | float32
  | float64
deriving Repr, DecidableEq

/-- Modelled from the spec: the byte width of each element type
(the `tensor_element_size` array of the tensor headers, not under src/). -/
def tensor_element_size : TensorType → Nat
  | TensorType.int8 => 1
  | TensorType.uint8 => 1
  | TensorType.int16 => 2
  | TensorType.uint16 => 2
  | TensorType.int32 => 4
  | TensorType.uint32 => 4
  | TensorType.int64 => 8
  | TensorType.uint64 => 8
  | TensorType.float32 => 4
  | TensorType.float64 => 8

/-- A dimension vector of rank NNS_TENSOR_RANK_LIMIT = 4 (the scaler example
asserts this limit explicitly). -/
structure TensorDim where
  d0 : Nat
  d1 : Nat
  d2 : Nat
  d3 : Nat
deriving Repr, DecidableEq

/-- Modelled from the spec: `element_count` is the product of all dimension
entries (the `get_tensor_element_count` helper lives outside src/). -/
def get_tensor_element_count (d : TensorDim) : Nat :=
  d.d0 * d.d1 * d.d2 * d.d3

/-- One tensor shape descriptor: dimensions plus element type. -/
structure GstTensorInfo where
  dimension : TensorDim
  ttype : TensorType
deriving Repr, DecidableEq

/-- A tensors descriptor.  The dispatcher and the scaler only ever access
`info[0]`, so the embedding keeps the first slot and the count. -/
structure GstTensorsInfo where
  num_tensors : Nat
  info0 : GstTensorInfo
deriving Repr, DecidableEq

/-- The fields of GstTensorFilterProperties the dispatcher reads. -/
structure FilterProps where
  input_meta : GstTensorsInfo
  output_meta : GstTensorsInfo
deriving Repr, DecidableEq

/-- Presence (non-NULL) of each function pointer of the module-exported
capability table `NNStreamer_custom_class`. -/
structure NNStreamer_custom_class where
  initfunc : Bool
  exitfunc : Bool
  getInputDim : Bool
  getOutputDim : Bool
  setInputDim : Bool
  invoke : Bool
  allocate_invoke : Bool
deriving Repr, DecidableEq

/-- The internal_data record custom_loadlib allocates: the resolved methods
table and the module_state returned by init (`customFW_private_data`), which
is `none` until init has run.  Module states are numbered by the init call
that created them. -/
structure InternalData where
  methods : NNStreamer_custom_class
  customFW_private_data : Option Nat
deriving Repr, DecidableEq

/-- The observable state of one filter instance, with ghost resource
counters (see the header comment). -/
structure FilterState where
  privateData : Option InternalData
  allocate_in_invoke : Bool
  libsOpen : Nat
  records : Nat
  initCalls : Nat
  exitLog : List (Option Nat × FilterProps)
  negotiated : Bool
deriving Repr, DecidableEq

/-- The state of a fresh filter instance: no private data, and
`allocate_in_invoke = FALSE` as in the static initializer of
NNS_support_custom. -/
def initialState : FilterState :=
  { privateData := none
    allocate_in_invoke := false
    libsOpen := 0
    records := 0
    initCalls := 0
    exitLog := []
    negotiated := false }

/-- Environment outcome of the dynamic-loading attempt: dlopen fails, dlsym
fails, or both succeed and resolve the given capability table. -/
inductive DlEnv where
  | dlopenFail
  | dlsymFail
  | ok (methods : NNStreamer_custom_class)
deriving Repr, DecidableEq

/-- Return value of custom_loadlib: 0 loaded, 1 skipped (already loaded),
-1 error, or a g_assert failure inside loadlib. -/
inductive LoadRet where
  | ret0
  | ret1
  | retm1
  | assertFail
deriving Repr, DecidableEq

/-- Error taxonomy used by the embedding (see the header comment for the
mapping from g_assert sites). -/
inductive CustomError where
  | LoadError
  | ContractViolation
  | LifecycleAssert
  | SizeMismatch
  | NullDeref
deriving Repr, DecidableEq

/-- The shape-discovery capability assert of custom_loadlib (line 94):
`!getInputDim != !setInputDim && !getOutputDim != !setInputDim`, i.e.
(getInputDim present XOR setInputDim present) and (getOutputDim present XOR
setInputDim present). -/
def dim_presence_check (m : NNStreamer_custom_class) : Bool :=
  (m.getInputDim != m.setInputDim) && (m.getOutputDim != m.setInputDim)

/-- The exclusivity condition as the specification words it: exactly one of
{get_input_shape present together with get_output_shape present} XOR
{set_shapes present}.  Spec-side definition, for comparison with
`dim_presence_check`, the condition the code enforces. -/
def spec_shape_xor (m : NNStreamer_custom_class) : Bool :=
  (m.getInputDim && m.getOutputDim) != m.setInputDim

/-- custom_loadlib: skip (return 1) when privateData is already set;
otherwise g_new0 the record, dlopen, dlsym, assert initfunc, call init,
assert the shape-discovery exclusivity, and return 0.  Both failure paths
free the record, the dlsym failure additionally dlcloses the library, and
both reset the private handle to NULL. -/
def custom_loadlib (env : DlEnv) (s : FilterState) : LoadRet × FilterState :=
  if s.privateData.isSome then
    (LoadRet.ret1, s)
  else
    match env with
    | DlEnv.dlopenFail =>
        -- g_new0 allocates the record, dlopen fails, g_free releases it,
        -- *private_data = NULL
        (LoadRet.retm1,
          { s with records := s.records + 1 - 1, privateData := none })
    | DlEnv.dlsymFail =>
        -- g_new0, dlopen succeeds, dlsym fails, dlclose, g_free,
        -- *private_data = NULL
        (LoadRet.retm1,
          { s with records := s.records + 1 - 1,
                   libsOpen := s.libsOpen + 1 - 1,
                   privateData := none })
    | DlEnv.ok m =>
        if m.initfunc = false then
          -- g_assert (ptr->methods->initfunc) fails, with the record
          -- allocated, the library open and *private_data set
          (LoadRet.assertFail,
            { s with records := s.records + 1,
                     libsOpen := s.libsOpen + 1,
                     privateData := some { methods := m, customFW_private_data := none } })
        else
          let s1 : FilterState :=
            { s with records := s.records + 1,
                     libsOpen := s.libsOpen + 1,
                     initCalls := s.initCalls + 1,
                     privateData := some { methods := m,
                                           customFW_private_data := some s.initCalls } }
          if dim_presence_check m then
            (LoadRet.ret0, s1)
          else
            (LoadRet.assertFail, s1)

/-- custom_open: run custom_loadlib, g_assert (retval == 0), then
g_assert (!invoke != !allocate_invoke), and record
`allocate_in_invoke = TRUE` when allocate_invoke is present. -/
def custom_open (env : DlEnv) (s : FilterState) : Except CustomError FilterState :=
  match custom_loadlib env s with
  | (LoadRet.ret0, s1) =>
      match s1.privateData with
      | some pd =>
          if pd.methods.invoke != pd.methods.allocate_invoke then
            if pd.methods.allocate_invoke then
              Except.ok { s1 with allocate_in_invoke := true }
            else
              Except.ok s1
          else
            Except.error CustomError.ContractViolation
      | none => Except.error CustomError.LifecycleAssert
  | (LoadRet.ret1, _) => Except.error CustomError.LifecycleAssert
  | (LoadRet.retm1, _) => Except.error CustomError.LoadError
  | (LoadRet.assertFail, _) => Except.error CustomError.ContractViolation

/-- The per-call behaviour of the loaded module, passed to the dispatcher as
opaque data: the status returned by invoke, and the size reported through the
out-parameter of allocate_invoke. -/
structure ModuleRun where
  invoke_status : Int
  allocate_size : Nat
deriving Repr, DecidableEq

/-- What custom_invoke hands back to the caller: the caller-supplied outptr,
the module-allocated pointer, or NULL. -/
inductive InvokeOut where
  | outPtr
  | allocPtr
  | nullPtr
deriving Repr, DecidableEq

/-- custom_invoke: run custom_loadlib, g_assert (retval == 1) (open must
have been called before), then dispatch: if invoke is present, return outptr
on status 0 and NULL otherwise; else if allocate_invoke is present, g_assert
that the reported size equals element_count(output_meta.info[0].dimension) *
tensor_element_size[output_meta.info[0].type] and return the module pointer;
else return NULL. -/
def custom_invoke (env : DlEnv) (mb : ModuleRun) (props : FilterProps)
    (s : FilterState) : Except CustomError (InvokeOut × FilterState) :=
  match custom_loadlib env s with
  | (LoadRet.ret1, s1) =>
      match s1.privateData with
      | some pd =>
          if pd.methods.invoke then
            if mb.invoke_status = 0 then
              Except.ok (InvokeOut.outPtr, s1)
            else
              Except.ok (InvokeOut.nullPtr, s1)
          else if pd.methods.allocate_invoke then
            if mb.allocate_size =
                get_tensor_element_count props.output_meta.info0.dimension *
                  tensor_element_size props.output_meta.info0.ttype then
              Except.ok (InvokeOut.allocPtr, s1)
            else
              Except.error CustomError.SizeMismatch
          else
            Except.ok (InvokeOut.nullPtr, s1)
      | none => Except.error CustomError.LifecycleAssert
  | (_, _) => Except.error CustomError.LifecycleAssert

/-- custom_setInputDim: run custom_loadlib, g_assert (retval == 1), return -1
when the module has no setInputDim, else call it on the input descriptor.
The ghost `negotiated` flag is set when the module reports success; no
translated code reads this flag. -/
def custom_setInputDim (env : DlEnv)
    (module_set : GstTensorsInfo → Int × GstTensorsInfo)
    (in_info : GstTensorsInfo) (s : FilterState) :
    Except CustomError (Int × GstTensorsInfo × FilterState) :=
  match custom_loadlib env s with
  | (LoadRet.ret1, s1) =>
      match s1.privateData with
      | some pd =>
          if pd.methods.setInputDim then
            let r := module_set in_info
            Except.ok (r.1, r.2,
              if r.1 = 0 then { s1 with negotiated := true } else s1)
          else
            Except.ok (-1, in_info, s1)
      | none => Except.error CustomError.LifecycleAssert
  | (_, _) => Except.error CustomError.LifecycleAssert

/-- custom_getOutputDim: run custom_loadlib, g_assert (retval == 1), return
-1 when the module has no getOutputDim, else call it (its status is passed as
`module_ret`).  The ghost `negotiated` flag is set on success. -/
def custom_getOutputDim (env : DlEnv) (module_ret : Int) (s : FilterState) :
    Except CustomError (Int × FilterState) :=
  match custom_loadlib env s with
  | (LoadRet.ret1, s1) =>
      match s1.privateData with
      | some pd =>
          if pd.methods.getOutputDim then
            Except.ok (module_ret,
              if module_ret = 0 then { s1 with negotiated := true } else s1)
          else
            Except.ok (-1, s1)
      | none => Except.error CustomError.LifecycleAssert
  | (_, _) => Except.error CustomError.LifecycleAssert

/-- custom_close: dereference *private_data, call
exitfunc (customFW_private_data, &prop), g_free the record, set
*private_data = NULL.  Calling it on an unopened handle, or with an absent
exitfunc, dereferences NULL.  No dlclose happens here: `libsOpen` is left
unchanged. -/
def custom_close (props : FilterProps) (s : FilterState) :
    Except CustomError FilterState :=
  match s.privateData with
  | none => Except.error CustomError.NullDeref
  | some pd =>
      if pd.methods.exitfunc then
        Except.ok
          { s with privateData := none,
                   records := s.records - 1,
                   exitLog := s.exitLog ++ [(pd.customFW_private_data, props)] }
      else
        Except.error CustomError.NullDeref

/-- Whether an open attempt succeeded. -/
def openOk : Except CustomError FilterState → Bool
  | Except.ok _ => true
  | Except.error _ => false

/-- The recorded output-ownership flag of a successful open. -/
def openAllocFlag : Except CustomError FilterState → Option Bool
  | Except.ok s => some s.allocate_in_invoke
  | Except.error _ => none

/-- Private data of the scaler example module: the parsed new-x/new-y target
sizes (its id and raw property string play no role in shape computation). -/
structure PtData where
  new_y : Nat
  new_x : Nat
deriving Repr, DecidableEq

/-- set_inputDim of the scaler example: one output tensor, dimensions copied
from the input, dimension[1] overwritten with new-x when new-x > 0 and
dimension[2] with new-y when new-y > 0, element type preserved; returns 0. -/
def set_inputDim (data : PtData) (in_info : GstTensorsInfo) :
    Int × GstTensorsInfo :=
  let copied : TensorDim := in_info.info0.dimension
  let withX : TensorDim :=
    if data.new_x > 0 then { copied with d1 := data.new_x } else copied
  let withY : TensorDim :=
    if data.new_y > 0 then { withX with d2 := data.new_y } else withX
  (0, { num_tensors := 1,
        info0 := { dimension := withY, ttype := in_info.info0.ttype } })

/-- A capability table of a well-formed static-mode, host-allocates module. -/
def mStaticGood : NNStreamer_custom_class :=
  { initfunc := true
    exitfunc := true
    getInputDim := true
    getOutputDim := true
    setInputDim := false
    invoke := true
    allocate_invoke := false }

/-- A capability table of a well-formed dynamic-mode, module-allocates
module. -/
def mAllocGood : NNStreamer_custom_class :=
  { initfunc := true
    exitfunc := true
    getInputDim := false
    getOutputDim := false
    setInputDim := true
    invoke := false
    allocate_invoke := true }

/-- A table mixing the styles the way the spec XOR still accepts: set_shapes
present together with get_input_shape but without get_output_shape. -/
def mMixedDyn : NNStreamer_custom_class :=
  { initfunc := true
    exitfunc := true
    getInputDim := true
    getOutputDim := false
    setInputDim := true
    invoke := true
    allocate_invoke := false }

/-- A table with init present and exit absent, otherwise well formed. -/
def mNoExit : NNStreamer_custom_class :=
  { initfunc := true
    exitfunc := false
    getInputDim := true
    getOutputDim := true
    setInputDim := false
    invoke := true
    allocate_invoke := false }

/-- The state after one successful open of mStaticGood from a fresh
instance. -/
def openedStatic : FilterState :=
  { privateData := some { methods := mStaticGood, customFW_private_data := some 0 }
    allocate_in_invoke := false
    libsOpen := 1
    records := 1
    initCalls := 1
    exitLog := []
    negotiated := false }

/-- The state after one successful open of mNoExit from a fresh instance. -/
def openedNoExit : FilterState :=
  { privateData := some { methods := mNoExit, customFW_private_data := some 0 }
    allocate_in_invoke := false
    libsOpen := 1
    records := 1
    initCalls := 1
    exitLog := []
    negotiated := false }

/-- Example properties: a 640x480x3 uint8 input scaled to 320x240x3 uint8. -/
def propsExample : FilterProps :=
  { input_meta :=
      { num_tensors := 1
        info0 := { dimension := { d0 := 3, d1 := 640, d2 := 480, d3 := 1 }
                   ttype := TensorType.uint8 } }
    output_meta :=
      { num_tensors := 1
        info0 := { dimension := { d0 := 3, d1 := 320, d2 := 240, d3 := 1 }
                   ttype := TensorType.uint8 } } }

/-- A table with both invoke and allocate_invoke present. -/
def mBothInvoke : NNStreamer_custom_class :=
  { initfunc := true
    exitfunc := true
    getInputDim := true
    getOutputDim := true
    setInputDim := false
    invoke := true
    allocate_invoke := true }

/-- A table with init absent. -/
def mNoInit : NNStreamer_custom_class :=
  { initfunc := false
    exitfunc := true
    getInputDim := true
    getOutputDim := true
    setInputDim := false
    invoke := true
    allocate_invoke := false }

/-- The state after one successful open of mAllocGood from a fresh
instance. -/
def openedAlloc : FilterState :=
  { privateData := some { methods := mAllocGood, customFW_private_data := some 0 }
    allocate_in_invoke := true
    libsOpen := 1
    records := 1
    initCalls := 1
    exitLog := []
    negotiated := false }

/-- The state after open then close of mStaticGood: private data gone, the
record freed, exit called once on module_state 0, but the library still
loaded (libsOpen = 1: custom_close never calls dlclose). -/
def closedStatic : FilterState :=
  { privateData := none
    allocate_in_invoke := false
    libsOpen := 1
    records := 0
    initCalls := 1
    exitLog := [(some 0, propsExample)]
    negotiated := false }

/-- C1 counterexample: the table mMixedDyn (set_shapes present together with
get_input_shape, get_output_shape absent) satisfies the exclusivity XOR as
the spec words it, so by the claim open must accept it; yet custom_open
rejects it, because the assert of custom_loadlib line 94 pairs each getter
separately against setInputDim. -/
theorem C1_shape_xor_counterexample :
    spec_shape_xor mMixedDyn = true ∧
    custom_open (DlEnv.ok mMixedDyn) initialState =
      Except.error CustomError.ContractViolation := by
  decide

/-- C1 (amended): open enforces the strictly stronger condition
(getInputDim XOR setInputDim) AND (getOutputDim XOR setInputDim).  A table
missing both styles or having both full styles is rejected with
ContractViolation, as the claim says, but a table with set_shapes plus
exactly one of the two getters is also rejected, not accepted.  The code
condition implies the XOR the spec words. -/
theorem C1_shape_check_amended (m : NNStreamer_custom_class) :
    openOk (custom_open (DlEnv.ok m) initialState) =
      (m.initfunc && dim_presence_check m && (m.invoke != m.allocate_invoke))
    ∧ (dim_presence_check m = true → spec_shape_xor m = true)
    ∧ (m.initfunc = true → dim_presence_check m = false →
        custom_open (DlEnv.ok m) initialState =
          Except.error CustomError.ContractViolation) := by
  obtain ⟨i, e, gi, go, si, iv, ai⟩ := m
  cases i <;> cases e <;> cases gi <;> cases go <;> cases si <;> cases iv <;>
    cases ai <;> decide

/-- Witness for C1_shape_check_amended at concrete capability tables. -/
theorem C1_shape_check_amended_witness :
    spec_shape_xor mStaticGood = true ∧
    custom_open (DlEnv.ok mMixedDyn) initialState =
      Except.error CustomError.ContractViolation :=
  ⟨(C1_shape_check_amended mStaticGood).2.1 (by decide),
   (C1_shape_check_amended mMixedDyn).2.2 (by decide) (by decide)⟩

/-- C2: open succeeds only when exactly one of invoke and allocate_invoke is
present; with neither or both, every open from a fresh instance fails with
ContractViolation; and a successful open records the module-allocates flag
exactly when allocate_invoke is present. -/
theorem C2_output_ownership (m : NNStreamer_custom_class) :
    (m.invoke = m.allocate_invoke →
      custom_open (DlEnv.ok m) initialState =
        Except.error CustomError.ContractViolation)
    ∧ (openOk (custom_open (DlEnv.ok m) initialState) = true →
        m.invoke ≠ m.allocate_invoke ∧
        openAllocFlag (custom_open (DlEnv.ok m) initialState) =
          some m.allocate_invoke) := by
  obtain ⟨i, e, gi, go, si, iv, ai⟩ := m
  cases i <;> cases e <;> cases gi <;> cases go <;> cases si <;> cases iv <;>
    cases ai <;> decide

/-- Witness for C2_output_ownership at concrete capability tables. -/
theorem C2_output_ownership_witness :
    custom_open (DlEnv.ok mBothInvoke) initialState =
      Except.error CustomError.ContractViolation ∧
    (mStaticGood.invoke ≠ mStaticGood.allocate_invoke ∧
      openAllocFlag (custom_open (DlEnv.ok mStaticGood) initialState) =
        some mStaticGood.allocate_invoke) :=
  ⟨(C2_output_ownership mBothInvoke).1 (by decide),
   (C2_output_ownership mStaticGood).2 (by decide)⟩

/-- C3 counterexample: after a first successful open, a second open on the
same instance is not a no-op success: custom_loadlib returns 1 (skipped) and
the assert retval == 0 of custom_open fails fatally. -/
theorem C3_second_open_counterexample :
    custom_open (DlEnv.ok mStaticGood) initialState = Except.ok openedStatic ∧
    custom_open (DlEnv.ok mStaticGood) openedStatic =
      Except.error CustomError.LifecycleAssert := by
  decide

/-- C3 (amended): on an already-open instance custom_loadlib skips the
reload, returning 1 with the state completely unchanged (no second init, no
replaced module_state, no leak), but custom_open asserts that return value
is 0, so a second open is a fatal assertion failure, not a no-op success. -/
theorem C3_second_open_amended (env : DlEnv) (s : FilterState)
    (h : s.privateData.isSome = true) :
    custom_loadlib env s = (LoadRet.ret1, s) ∧
    custom_open env s = Except.error CustomError.LifecycleAssert := by
  constructor
  · simp [custom_loadlib, h]
  · simp [custom_open, custom_loadlib, h]

/-- Witness for C3_second_open_amended at a concrete open state. -/
theorem C3_second_open_amended_witness :
    custom_loadlib (DlEnv.ok mStaticGood) openedNoExit =
      (LoadRet.ret1, openedNoExit) ∧
    custom_open (DlEnv.ok mStaticGood) openedNoExit =
      Except.error CustomError.LifecycleAssert :=
  C3_second_open_amended (DlEnv.ok mStaticGood) openedNoExit (by decide)

/-- C4 counterexample: mNoExit has no exit function, yet open from a fresh
instance succeeds; the missing exit only manifests at close, where the NULL
exitfunc pointer is called. -/
theorem C4_exit_not_checked_counterexample :
    mNoExit.exitfunc = false ∧
    custom_open (DlEnv.ok mNoExit) initialState = Except.ok openedNoExit ∧
    custom_close propsExample openedNoExit =
      Except.error CustomError.NullDeref := by
  decide

/-- C4 (amended): of the two mandatory capabilities only init is validated
at load time (a missing init is fatal at open with ContractViolation); exit
presence is never checked at open, as the success condition of open shows:
it does not mention exitfunc. -/
theorem C4_init_only_amended (m : NNStreamer_custom_class) :
    (m.initfunc = false →
      custom_open (DlEnv.ok m) initialState =
        Except.error CustomError.ContractViolation)
    ∧ openOk (custom_open (DlEnv.ok m) initialState) =
        (m.initfunc && dim_presence_check m && (m.invoke != m.allocate_invoke)) := by
  obtain ⟨i, e, gi, go, si, iv, ai⟩ := m
  cases i <;> cases e <;> cases gi <;> cases go <;> cases si <;> cases iv <;>
    cases ai <;> decide

/-- Witness for C4_init_only_amended at a concrete table without init. -/
theorem C4_init_only_amended_witness :
    custom_open (DlEnv.ok mNoInit) initialState =
      Except.error CustomError.ContractViolation :=
  (C4_init_only_amended mNoInit).1 (by decide)

/-- C5: in module-allocates mode (invoke absent, allocate_invoke present),
every run compares the size the module reports against
element_count(output_meta.info[0].dimension) * width(element type): it
returns the module-owned buffer exactly when they are equal, and fails with
SizeMismatch when they differ. -/
theorem C5_alloc_size_check (env : DlEnv) (mb : ModuleRun) (props : FilterProps)
    (s : FilterState) (pd : InternalData)
    (hpd : s.privateData = some pd)
    (hinv : pd.methods.invoke = false)
    (halloc : pd.methods.allocate_invoke = true) :
    custom_invoke env mb props s =
      if mb.allocate_size =
          get_tensor_element_count props.output_meta.info0.dimension *
            tensor_element_size props.output_meta.info0.ttype then
        Except.ok (InvokeOut.allocPtr, s)
      else
        Except.error CustomError.SizeMismatch := by
  simp [custom_invoke, custom_loadlib, hpd, hinv, halloc]

/-- Witness for C5_alloc_size_check: a module reporting 320*240*3 bytes for
the negotiated [3,320,240,1]/uint8 output is accepted. -/
theorem C5_alloc_size_check_witness :
    custom_invoke (DlEnv.ok mAllocGood) ⟨0, 230400⟩ propsExample openedAlloc =
      Except.ok (InvokeOut.allocPtr, openedAlloc) := by
  have h := C5_alloc_size_check (DlEnv.ok mAllocGood) ⟨0, 230400⟩ propsExample
    openedAlloc { methods := mAllocGood, customFW_private_data := some 0 }
    (by decide) (by decide) (by decide)
  rw [h]
  decide

/-- C6: in host-allocates mode (invoke present), every run on an open handle
returns the caller-supplied output buffer exactly when the module reports
status 0, and returns NULL (no buffer, surfaced as InvocationError) on every
non-zero status, so a failed invocation can never hand the caller the filled
buffer. -/
theorem C6_host_invoke (env : DlEnv) (mb : ModuleRun) (props : FilterProps)
    (s : FilterState) (pd : InternalData)
    (hpd : s.privateData = some pd)
    (hinv : pd.methods.invoke = true) :
    custom_invoke env mb props s =
      (if mb.invoke_status = 0 then Except.ok (InvokeOut.outPtr, s)
       else Except.ok (InvokeOut.nullPtr, s))
    ∧ (mb.invoke_status ≠ 0 →
        ∀ s2, custom_invoke env mb props s ≠ Except.ok (InvokeOut.outPtr, s2)) := by
  have h1 : custom_invoke env mb props s =
      (if mb.invoke_status = 0 then Except.ok (InvokeOut.outPtr, s)
       else Except.ok (InvokeOut.nullPtr, s)) := by
    simp [custom_invoke, custom_loadlib, hpd, hinv]
  refine ⟨h1, ?_⟩
  intro hne s2
  rw [h1]
  simp [hne]

/-- Witness for C6_host_invoke: a status-0 invocation on the opened static
module returns the caller-supplied buffer. -/
theorem C6_host_invoke_witness :
    custom_invoke (DlEnv.ok mStaticGood) ⟨0, 0⟩ propsExample openedStatic =
      (if (0 : Int) = 0 then Except.ok (InvokeOut.outPtr, openedStatic)
       else Except.ok (InvokeOut.nullPtr, openedStatic)) :=
  (C6_host_invoke (DlEnv.ok mStaticGood) ⟨0, 0⟩ propsExample openedStatic
    { methods := mStaticGood, customFW_private_data := some 0 }
    (by decide) (by decide)).1

/-- C7 counterexample: openedStatic is produced by open alone from a fresh
instance, so no shape negotiation ever succeeded in its lifetime (its ghost
negotiated flag is false); yet run is not rejected with any NotNegotiated
error: it dispatches into the module and returns the output buffer. -/
theorem C7_no_negotiation_counterexample :
    openedStatic.negotiated = false ∧
    custom_open (DlEnv.ok mStaticGood) initialState = Except.ok openedStatic ∧
    custom_invoke (DlEnv.ok mStaticGood) ⟨0, 0⟩ propsExample openedStatic =
      Except.ok (InvokeOut.outPtr, openedStatic) := by
  decide

/-- C7 (amended): the dispatcher only enforces that open already happened —
run on an unopened handle never succeeds (custom_loadlib would load afresh
and the assert retval == 1 aborts); but once the handle is open, run performs
no negotiation check at all: even with no successful negotiation in the
handle's lifetime, a status-0 invocation dispatches into the module. -/
theorem C7_negotiation_amended (env : DlEnv) (mb : ModuleRun)
    (props : FilterProps) (s : FilterState) :
    (s.privateData = none → ∀ r, custom_invoke env mb props s ≠ Except.ok r)
    ∧ (∀ pd, s.privateData = some pd → pd.methods.invoke = true →
        s.negotiated = false → mb.invoke_status = 0 →
        custom_invoke env mb props s = Except.ok (InvokeOut.outPtr, s)) := by
  constructor
  · intro h r
    cases env with
    | dlopenFail => simp [custom_invoke, custom_loadlib, h]
    | dlsymFail => simp [custom_invoke, custom_loadlib, h]
    | ok m =>
        by_cases hi : m.initfunc = false
        · simp [custom_invoke, custom_loadlib, h, hi]
        · by_cases hd : dim_presence_check m = true
          · simp [custom_invoke, custom_loadlib, h, hi, hd]
          · simp [custom_invoke, custom_loadlib, h, hi, hd]
  · intro pd hpd hinv hneg hst
    simp [custom_invoke, custom_loadlib, hpd, hinv, hst]

/-- Witness for C7_negotiation_amended at the opened, never-negotiated
state. -/
theorem C7_negotiation_amended_witness :
    custom_invoke (DlEnv.ok mStaticGood) ⟨0, 999⟩ propsExample openedStatic =
      Except.ok (InvokeOut.outPtr, openedStatic) :=
  (C7_negotiation_amended (DlEnv.ok mStaticGood) ⟨0, 999⟩ propsExample
    openedStatic).2 { methods := mStaticGood, customFW_private_data := some 0 }
    (by decide) (by decide) (by decide) (by decide)

/-- C8 counterexample: open then close of the static module.  Close calls
exit on module_state 0 with the config, frees the record and nulls the
handle, but the library it loaded is still open afterwards (libsOpen = 1:
custom_close contains no dlclose), refuting the claim that close unloads the
loaded library. -/
theorem C8_close_counterexample :
    custom_open (DlEnv.ok mStaticGood) initialState = Except.ok openedStatic ∧
    custom_close propsExample openedStatic = Except.ok closedStatic ∧
    closedStatic.libsOpen = 1 ∧ closedStatic.privateData = none := by
  decide

/-- C8 (amended): close on an open handle with exit present calls
exit(module_state, config) once on the stored module_state, frees the
internal record, and nulls the instance's private handle — but it does not
unload the library: the count of loaded libraries is unchanged across
close. -/
theorem C8_close_amended (props : FilterProps) (s : FilterState)
    (pd : InternalData)
    (hpd : s.privateData = some pd) (hexit : pd.methods.exitfunc = true) :
    custom_close props s =
      Except.ok { s with privateData := none,
                         records := s.records - 1,
                         exitLog := s.exitLog ++ [(pd.customFW_private_data, props)] }
    ∧ ∀ s2, custom_close props s = Except.ok s2 →
        s2.libsOpen = s.libsOpen ∧ s2.privateData = none := by
  have h1 : custom_close props s =
      Except.ok { s with privateData := none,
                         records := s.records - 1,
                         exitLog := s.exitLog ++ [(pd.customFW_private_data, props)] } := by
    simp [custom_close, hpd, hexit]
  refine ⟨h1, ?_⟩
  intro s2 h2
  rw [h1] at h2
  cases h2
  simp

/-- Witness for C8_close_amended at the opened static state. -/
theorem C8_close_amended_witness :
    custom_close propsExample openedStatic = Except.ok closedStatic := by
  have h := (C8_close_amended propsExample openedStatic
    { methods := mStaticGood, customFW_private_data := some 0 }
    (by decide) (by decide)).1
  rw [h]
  decide

/-- C9: set_inputDim of the scaler returns status 0 and a single-tensor
descriptor whose dimensions equal the input's, except dimension[1] becomes
new-x when new-x > 0 and dimension[2] becomes new-y when new-y > 0, with the
element type preserved; in particular, configured for 320x240, input
[3,640,480,1]/uint8 yields [3,320,240,1]/uint8. -/
theorem C9_scaler_set_shapes (data : PtData) (in_info : GstTensorsInfo) :
    set_inputDim data in_info =
      (0, { num_tensors := 1,
            info0 :=
              { dimension :=
                  { d0 := in_info.info0.dimension.d0
                    d1 := if data.new_x > 0 then data.new_x
                          else in_info.info0.dimension.d1
                    d2 := if data.new_y > 0 then data.new_y
                          else in_info.info0.dimension.d2
                    d3 := in_info.info0.dimension.d3 }
                ttype := in_info.info0.ttype } })
    ∧ set_inputDim ⟨240, 320⟩ ⟨1, ⟨⟨3, 640, 480, 1⟩, TensorType.uint8⟩⟩ =
        (0, ⟨1, ⟨⟨3, 320, 240, 1⟩, TensorType.uint8⟩⟩) := by
  constructor
  · unfold set_inputDim
    by_cases hx : data.new_x > 0 <;> by_cases hy : data.new_y > 0 <;>
      simp [hx, hy]
  · decide

/-- C10: a failed load attempt is atomic: when dlopen fails, or dlsym fails
(in which case the library is dlclosed again), custom_loadlib returns -1
with the instance in exactly the unopened state it started from — record
freed, library closed, private handle NULL — and custom_open surfaces the
failure as a load error. -/
theorem C10_failed_load_atomic (env : DlEnv) (s : FilterState)
    (hunopened : s.privateData = none)
    (hfail : env = DlEnv.dlopenFail ∨ env = DlEnv.dlsymFail) :
    custom_loadlib env s = (LoadRet.retm1, s) ∧
    custom_open env s = Except.error CustomError.LoadError := by
  have h1 : custom_loadlib env s = (LoadRet.retm1, s) := by
    obtain ⟨pd0, af, lo, rec, ic, el, ng⟩ := s
    simp only at hunopened
    subst hunopened
    rcases hfail with h | h <;> subst h <;> simp [custom_loadlib]
  refine ⟨h1, ?_⟩
  simp [custom_open, h1]

/-- Witness for C10_failed_load_atomic at a fresh instance with a failing
dlsym. -/
theorem C10_failed_load_atomic_witness :
    custom_loadlib DlEnv.dlsymFail initialState = (LoadRet.retm1, initialState) ∧
    custom_open DlEnv.dlsymFail initialState =
      Except.error CustomError.LoadError :=
  C10_failed_load_atomic DlEnv.dlsymFail initialState (by decide) (Or.inr rfl)

end NNStreamer
